import Mathlib

/-!
Verification development for the `EnhancedPostTable` component
(`src/src/app/ReusableComponents/Tables/Table.tsx`).

The component is shallowly embedded as pure Lean functions over an explicit
`State` structure mirroring the React `useState` slots.  JavaScript numbers
that can become `NaN` in this component (only `totalPages`) are modelled as
`Option Int` with `none` standing for `NaN`; every other number in the
component stays an integer.  Asynchronous fetching is split into the
synchronous prefix (`fetchResultsStart`, which raises the loading flag and
issues the request) and the continuation applied when the promise settles
(`fetchResultsComplete`, taking the outcome as data).  Event handlers are
total functions; a handler that performs no network call still returns an
`Option FetchRequest` slot (always `none`) so that absence of requests is
expressible.
-/

namespace ReusableTable

/-- A dynamic value stored in a record field.  The component treats record
values as untyped (`any`); integers, strings and null cover the data this
table consumes.  (Fractional floats are not modelled.) -/
inductive Value where
  | num (n : Int)
  | str (s : String)
  | vNull
deriving DecidableEq

/-- `interface Post { [key: string]: any }` — an open-ended string-keyed
record; iteration order of fields is the list order (JS object insertion
order for non-numeric keys). -/
abbrev Record := List (String × Value)

/-- `interface Column { key: string; label: string; visible: boolean }`. -/
structure Column where
  key : String
  label : String
  visible : Bool
deriving DecidableEq

/-- `sortDirection` state: `"asc" | "desc"`. -/
inductive SortDir where
  | asc
  | desc
deriving DecidableEq

/-- The React state slots of `EnhancedPostTable`.  `totalPages` is a JS
number that can be `NaN` (modelled `none`). -/
structure State where
  results : List Record
  currentPage : Int
  totalPages : Option Int
  titleFilter : String
  bodyFilter : String
  sortColumn : Option String
  sortDirection : SortDir
  columns : List Column
  isLoading : Bool
deriving DecidableEq

/-- `useState` defaults: `results = []`, `currentPage = 1`, `totalPages = 0`,
empty filters, no sort column, direction asc, no columns, not loading. -/
def initialState : State :=
  { results := []
    currentPage := 1
    totalPages := some 0
    titleFilter := ""
    bodyFilter := ""
    sortColumn := none
    sortDirection := SortDir.asc
    columns := []
    isLoading := false }

/-- A network request issued by the component (the `fetch(...)` call). -/
structure FetchRequest where
  url : String
deriving DecidableEq

/-- The URL built in `fetchResults`:
`` `${apiEndpoint}?_page=${page}&_limit=${pagePerRecord}` ``. -/
def requestUrl (apiEndpoint : String) (page : Int) (pagePerRecord : Int) : String :=
  apiEndpoint ++ "?_page=" ++ toString page ++ "&_limit=" ++ toString pagePerRecord

/-! ### JavaScript primitives used by the component -/

/-- Value of a digit string (radix 10). -/
def digitsToNat (cs : List Char) : Nat :=
  cs.foldl (fun acc c => acc * 10 + (c.toNat - 48)) 0

/-- `parseInt(s, 10)`: skip leading whitespace, optional sign, then the
longest prefix of decimal digits; no digits at all gives `NaN` (`none`). -/
def jsParseInt (s : String) : Option Int :=
  let cs := s.toList.dropWhile (fun c => c == ' ' || c == '\t' || c == '\n' || c == '\r')
  let signed : Int × List Char :=
    match cs with
    | '-' :: rest => (-1, rest)
    | '+' :: rest => (1, rest)
    | _ => (1, cs)
  let digits := signed.2.takeWhile (fun c => c.isDigit)
  if digits.isEmpty then none else some (signed.1 * (digitsToNat digits : Int))

/-- `response.headers.get("x-total-count") || "0"` followed by
`parseInt(·, 10)`: an absent header (`null`) or an empty string is falsy and
replaced by `"0"`; any other string goes to `parseInt` unchanged. -/
def parseTotalCount (header : Option String) : Option Int :=
  let raw : String :=
    match header with
    | none => "0"
    | some v => if v = "" then "0" else v
  jsParseInt raw

/-- `Math.ceil(a / b)` for integer `a` and positive integer `b`. -/
def ceilDivInt (a b : Int) : Int :=
  -((-a).fdiv b)

/-- `Number(s)` as used by JS abstract relational comparison on a string
operand: trimmed empty string is `0`, an optional sign followed by digits
only is that integer, anything else is `NaN` (`none`). -/
def strToNumber (s : String) : Option Int :=
  let cs := s.toList.dropWhile (fun c => c == ' ' || c == '\t' || c == '\n' || c == '\r')
  let cs := (cs.reverse.dropWhile (fun c => c == ' ' || c == '\t' || c == '\n' || c == '\r')).reverse
  if cs.isEmpty then some 0
  else
    let signed : Int × List Char :=
      match cs with
      | '-' :: rest => (-1, rest)
      | '+' :: rest => (1, rest)
      | _ => (1, cs)
    if !signed.2.isEmpty && signed.2.all (fun c => c.isDigit) then
      some (signed.1 * (digitsToNat signed.2 : Int))
    else none

/-- Numeric coercion of a `Value` for relational comparison
(`null` coerces to `0`, a non-numeric string to `NaN`). -/
def toNumber : Value → Option Int
  | Value.num n => some n
  | Value.vNull => some 0
  | Value.str s => strToNumber s

/-- JS `a < b`: if both operands are strings, compare lexicographically by
code unit; otherwise coerce both to numbers, any `NaN` making the comparison
false. -/
def jsLtVal (a b : Value) : Bool :=
  match a, b with
  | Value.str s, Value.str t => decide (s < t)
  | _, _ =>
    match toNumber a, toNumber b with
    | some x, some y => decide (x < y)
    | _, _ => false

/-- JS `a < b` where either side may be `undefined` (a missing field):
any comparison involving `undefined` is false. -/
def jsLtOpt : Option Value → Option Value → Bool
  | some a, some b => jsLtVal a b
  | _, _ => false

/-- `record[key]`: `undefined` (`none`) when the field is missing. -/
def getField (r : Record) (key : String) : Option Value :=
  (r.find? (fun p => p.1 == key)).map Prod.snd

/-! ### Sorting (`[...results].sort(comparator)`) -/

/-- The arrow-function comparator in `handleSort`:
`a[column] < b[column]` gives `-1`/`1` by direction,
`a[column] > b[column]` gives `1`/`-1` by direction, else `0`.
(JS `a > b` is the `<` relation with the operands swapped.) -/
def jsCompare (column : String) (dir : SortDir) (a b : Record) : Int :=
  if jsLtOpt (getField a column) (getField b column) then
    match dir with
    | SortDir.asc => -1
    | SortDir.desc => 1
  else if jsLtOpt (getField b column) (getField a column) then
    match dir with
    | SortDir.asc => 1
    | SortDir.desc => -1
  else 0

/-- Stable insertion step: `x` is placed before the first element it
compares strictly below, hence after every element it ties with. -/
def insertCmp (cmp : α → α → Int) (x : α) : List α → List α
  | [] => [x]
  | y :: ys => if cmp x y < 0 then x :: y :: ys else y :: insertCmp cmp x ys

/-- Stable sort by a comparator, modelling `Array.prototype.sort` (stable
per ES2019; for a consistent comparator the stable-sorted output is
unique, so insertion sort is a faithful model). -/
def sortCmp (cmp : α → α → Int) : List α → List α
  | [] => []
  | x :: xs => insertCmp cmp x (sortCmp cmp xs)

/-! ### Event handlers -/

/-- `handleSort(column)` — lines 99–115.  Gated on `isSort`.  If the clicked
column is the active sort column the direction state flips, otherwise the
active column switches and direction resets to asc.  The comparator then
sorts a copy of `results`, closing over the PRE-update `sortDirection`
(the `setSortDirection` call does not change the local binding the
comparator reads).  No network request is made. -/
def handleSort (isSort : Bool) (column : String) (s : State) :
    State × Option FetchRequest :=
  if !isSort then (s, none)
  else
    let s1 :=
      if s.sortColumn = some column then
        { s with sortDirection :=
            match s.sortDirection with
            | SortDir.asc => SortDir.desc
            | SortDir.desc => SortDir.asc }
      else
        { s with sortColumn := some column, sortDirection := SortDir.asc }
    ({ s1 with results := sortCmp (jsCompare column s.sortDirection) s.results }, none)

/-- `toggleColumnVisibility(key)` — lines 117–125.  Gated on `columnToogle`;
flips `visible` of every column whose key matches, preserving order. -/
def toggleColumnVisibility (columnToogle : Bool) (key : String) (s : State) :
    State × Option FetchRequest :=
  if !columnToogle then (s, none)
  else
    ({ s with columns :=
        s.columns.map (fun col =>
          if col.key = key then { col with visible := !col.visible } else col) },
     none)

/-- Synchronous prefix of `fetchResults(page)` — lines 73–78: raise the
loading flag and issue the GET request for the page. -/
def fetchResultsStart (apiEndpoint : String) (pagePerRecord : Int) (page : Int)
    (s : State) : State × FetchRequest :=
  ({ s with isLoading := true }, ⟨requestUrl apiEndpoint page pagePerRecord⟩)

/-- `applyFilter()` — lines 127–131.  Gated on `isFilter`; sets
`currentPage` to 1 and re-invokes `fetchResults(1)`.  The filter text is
not read at all. -/
def applyFilter (isFilter : Bool) (apiEndpoint : String) (pagePerRecord : Int)
    (s : State) : State × Option FetchRequest :=
  if !isFilter then (s, none)
  else
    let r := fetchResultsStart apiEndpoint pagePerRecord 1 { s with currentPage := 1 }
    (r.1, some r.2)

/-- Outcome of an in-flight fetch: transport/decoding failure, or a decoded
record list together with the raw `x-total-count` header (absent = `none`). -/
inductive FetchOutcome where
  | failure
  | success (data : List Record) (totalCountHeader : Option String)

/-- Continuation of `fetchResults` — lines 79–96.  On success: store the
records, recompute `totalPages = Math.ceil(totalCount / pagePerRecord)`,
and re-derive columns from the first record when the page is non-empty.
On failure the `catch` only logs, so the `finally` clears the loading flag
and nothing else changes. -/
def fetchResultsComplete (pagePerRecord : Int) (outcome : FetchOutcome)
    (s : State) : State :=
  match outcome with
  | FetchOutcome.failure => { s with isLoading := false }
  | FetchOutcome.success data header =>
    let totalCount := parseTotalCount header
    let s1 := { s with
      results := data
      totalPages := totalCount.map (fun n => ceilDivInt n pagePerRecord) }
    let s2 :=
      match data with
      | [] => s1
      | d0 :: _ =>
        { s1 with columns :=
            d0.map (fun (p : String × Value) => Column.mk p.1 p.1.toUpper true) }
    { s2 with isLoading := false }

/-- `onDragEnd(result)` — lines 133–141.  Returns early when the drop has no
destination or column toggling is disabled.  Otherwise it splices the source
element out and splices it back in at the destination.  There is no bounds
check: when `source.index` is out of range, `splice` removes nothing and the
destructuring yields `undefined`, which is then inserted into the array —
hence the result type `List (Option Column)` with `none` for `undefined`. -/
def onDragEnd (columnToogle : Bool) (destination : Option Nat) (sourceIdx : Nat)
    (cols : List Column) : List (Option Column) :=
  match destination with
  | none => cols.map some
  | some destIdx =>
    if !columnToogle then cols.map some
    else
      let arr := cols.map some
      let removed := (arr.drop sourceIdx).take 1
      let rest := arr.take sourceIdx ++ arr.drop (sourceIdx + 1)
      let reorderedColumn := removed.headD none
      rest.take destIdx ++ reorderedColumn :: rest.drop destIdx

/-! ### Pagination handlers -/

/-- The two pagination button actions — lines 247–278. -/
inductive NavAction where
  | next
  | prev
deriving DecidableEq

/-- One button click: previous is `Math.max(prev - 1, 1)`, next is
`Math.min(prev + 1, totalPages)` (here for an integer `totalPages`). -/
def navStep (totalPages : Int) (p : Int) : NavAction → Int
  | NavAction.prev => max (p - 1) 1
  | NavAction.next => min (p + 1) totalPages

/-- `currentPage` after a sequence of next/previous clicks from page `p`. -/
def navRun (totalPages : Int) (p : Int) (acts : List NavAction) : Int :=
  acts.foldl (navStep totalPages) p

/-- Reference reordering following the spec wording for `reorder(from, to)`:
remove the column at `src` and re-insert it at `dst`, shifting the columns
in between (identity when `src` is out of bounds).  Used to compare the
splice-based `onDragEnd` against the spec's description. -/
def moveColumn (cols : List Column) (src dst : Nat) : List Column :=
  match cols[src]? with
  | none => cols
  | some c =>
    let erased := cols.take src ++ cols.drop (src + 1)
    erased.take dst ++ c :: erased.drop dst

/-! ### Helper lemmas -/

theorem insertCmp_perm (cmp : α → α → Int) (x : α) (l : List α) :
    List.Perm (insertCmp cmp x l) (x :: l) := by
  induction l with
  | nil => simp [insertCmp]
  | cons y ys ih =>
    simp only [insertCmp]
    split
    · exact List.Perm.refl _
    · exact (List.Perm.cons y ih).trans (List.Perm.swap x y ys)

theorem sortCmp_perm (cmp : α → α → Int) (l : List α) :
    List.Perm (sortCmp cmp l) l := by
  induction l with
  | nil => exact List.Perm.refl _
  | cons x xs ih =>
    exact (insertCmp_perm cmp x (sortCmp cmp xs)).trans (List.Perm.cons x ih)

/-! ### Concrete example data for the claim instances -/

/-- Record with field `v = 2`. -/
def sortDemoHigh : Record := [("v", Value.num 2)]

/-- Record with field `v = 1`. -/
def sortDemoLow : Record := [("v", Value.num 1)]

/-- A freshly fetched page holding `[{v: 2}, {v: 1}]` with no active sort. -/
def sortDemoState : State :=
  { initialState with
    results := [sortDemoHigh, sortDemoLow]
    totalPages := some 1
    columns := [Column.mk "v" "V" true] }

/-- A state whose active sort column is `"id"`. -/
def sortToggleDemoState : State := { initialState with sortColumn := some "id" }

/-- A single-column list for the out-of-bounds reorder counterexample. -/
def reorderDemoCols : List Column := [Column.mk "id" "ID" true]

/-- A three-column list for the in-bounds reorder witness. -/
def reorderDemoCols3 : List Column :=
  [Column.mk "a" "A" true, Column.mk "b" "B" true, Column.mk "c" "C" true]

/-! ### Claim theorems -/

/-- Claim C1: starting from a freshly fetched page with no active sort, the
first click on a column sorts ascending; the claim says the second click
re-sorts descending.  The code instead re-sorts with the pre-toggle
direction (the comparator closes over the stale `sortDirection`), so after
the second click the rows are still ascending even though the direction
state — and the rendered direction indicator — say desc. -/
theorem sort_second_click_remains_ascending :
    (handleSort true "v" sortDemoState).1.results = [sortDemoLow, sortDemoHigh]
    ∧ (handleSort true "v" (handleSort true "v" sortDemoState).1).1.sortDirection
        = SortDir.desc
    ∧ (handleSort true "v" (handleSort true "v" sortDemoState).1).1.results
        = [sortDemoLow, sortDemoHigh]
    ∧ (handleSort true "v" (handleSort true "v" sortDemoState).1).1.results
        ≠ [sortDemoHigh, sortDemoLow] := by
  decide

/-- Claim C2, counterexample: with `totalPages = 0`, pressing next at the
starting page 1 sets `currentPage` to `min 2 0 = 0`, which lies outside
`[1, totalPages] = [1, 0]`. -/
theorem nav_leaves_interval_at_zero_totalPages :
    ¬ (1 ≤ navRun 0 1 [NavAction.next] ∧ navRun 0 1 [NavAction.next] ≤ 0) := by
  decide

/-- Claim C2, amended: for every `totalPages ≥ 1` and every sequence of
next/previous clicks starting from page 1, `currentPage` stays within
`[1, totalPages]`. -/
theorem nav_stays_in_range (totalPages : Int) (h : 1 ≤ totalPages)
    (acts : List NavAction) :
    1 ≤ navRun totalPages 1 acts ∧ navRun totalPages 1 acts ≤ totalPages := by
  have key : ∀ (as : List NavAction) (p : Int), 1 ≤ p → p ≤ totalPages →
      1 ≤ navRun totalPages p as ∧ navRun totalPages p as ≤ totalPages := by
    intro as
    induction as with
    | nil => intro p h1 h2; exact ⟨h1, h2⟩
    | cons a rest ih =>
      intro p h1 h2
      have hs : 1 ≤ navStep totalPages p a ∧ navStep totalPages p a ≤ totalPages := by
        cases a <;> simp only [navStep] <;> omega
      exact ih (navStep totalPages p a) hs.1 hs.2
  exact key acts 1 le_rfl h

/-- Witness for `nav_stays_in_range` at `totalPages = 3` with a concrete
click sequence. -/
theorem nav_stays_in_range_witness :
    1 ≤ navRun 3 1 [NavAction.next, NavAction.next, NavAction.prev]
    ∧ navRun 3 1 [NavAction.next, NavAction.next, NavAction.prev] ≤ 3 :=
  nav_stays_in_range 3 (by decide) [NavAction.next, NavAction.next, NavAction.prev]

/-- Claim C3: a failed fetch leaves `results` and `columns` at their
pre-fetch values and clears the loading flag; the handler is a total
function, so no exception propagates. -/
theorem fetch_failure_preserves_state (pagePerRecord : Int) (s : State) :
    (fetchResultsComplete pagePerRecord FetchOutcome.failure s).results = s.results
    ∧ (fetchResultsComplete pagePerRecord FetchOutcome.failure s).columns = s.columns
    ∧ (fetchResultsComplete pagePerRecord FetchOutcome.failure s).isLoading = false :=
  ⟨rfl, rfl, rfl⟩

/-- Claim C4: a successful fetch with at least one record replaces the
column list by exactly the first record's field names, in iteration order,
each visible with an upper-cased label; a successful fetch of an empty list
leaves the column list unchanged. -/
theorem fetch_success_derives_columns (pagePerRecord : Int) (s : State)
    (d0 : Record) (rest : List Record) (header : Option String) :
    (fetchResultsComplete pagePerRecord
        (FetchOutcome.success (d0 :: rest) header) s).columns
      = d0.map (fun (p : String × Value) => Column.mk p.1 p.1.toUpper true)
    ∧ (fetchResultsComplete pagePerRecord
        (FetchOutcome.success [] header) s).columns = s.columns :=
  ⟨rfl, rfl⟩

/-- Claim C5: with sorting enabled, clicking the active sort column keeps
the column and flips the direction state; clicking a different column
switches the active column and resets the direction state to asc. -/
theorem sort_toggle_state_semantics (column : String) (s : State) :
    (s.sortColumn = some column →
      (handleSort true column s).1.sortColumn = s.sortColumn
      ∧ (handleSort true column s).1.sortDirection
          = (match s.sortDirection with
             | SortDir.asc => SortDir.desc
             | SortDir.desc => SortDir.asc))
    ∧ (s.sortColumn ≠ some column →
      (handleSort true column s).1.sortColumn = some column
      ∧ (handleSort true column s).1.sortDirection = SortDir.asc) := by
  constructor
  · intro h
    simp [handleSort, h]
  · intro h
    simp [handleSort, h]

/-- Witness for `sort_toggle_state_semantics`: both branches at concrete
states (active column `"id"` clicked again, and a fresh state where `"id"`
is not the active column). -/
theorem sort_toggle_state_semantics_witness :
    ((handleSort true "id" sortToggleDemoState).1.sortColumn
        = sortToggleDemoState.sortColumn
      ∧ (handleSort true "id" sortToggleDemoState).1.sortDirection
          = (match sortToggleDemoState.sortDirection with
             | SortDir.asc => SortDir.desc
             | SortDir.desc => SortDir.asc))
    ∧ ((handleSort true "id" initialState).1.sortColumn = some "id"
      ∧ (handleSort true "id" initialState).1.sortDirection = SortDir.asc) :=
  ⟨(sort_toggle_state_semantics "id" sortToggleDemoState).1 rfl,
   (sort_toggle_state_semantics "id" initialState).2 (by decide)⟩

/-- Claim C6, counterexample: with column toggling enabled and an
out-of-bounds source index (3 on a one-element list), `onDragEnd` does not
leave the column list unchanged — the splice removes nothing, the
destructuring yields `undefined`, and `undefined` is inserted at the
destination. -/
theorem reorder_out_of_bounds_changes_list :
    onDragEnd true (some 0) 3 reorderDemoCols ≠ reorderDemoCols.map some := by
  decide

/-- Claim C6, amended: `onDragEnd` is a no-op when the drop has no
destination or column toggling is disabled; when toggling is enabled and the
source index is in bounds it moves the source column to the destination
index (clamped to the remaining length), shifting the columns in between.
No bounds check is performed: an out-of-bounds source index instead inserts
an `undefined` entry. -/
theorem reorder_gating_and_inbounds_move (cols : List Column) (ct : Bool)
    (dest : Option Nat) (src : Nat) :
    onDragEnd false dest src cols = cols.map some
    ∧ onDragEnd ct none src cols = cols.map some
    ∧ (∀ d : Nat, src < cols.length →
        onDragEnd true (some d) src cols = (moveColumn cols src d).map some) := by
  refine ⟨?_, ?_, ?_⟩
  · cases dest <;> simp [onDragEnd]
  · rfl
  · intro d h
    have hget : cols[src]? = some cols[src] := List.getElem?_eq_getElem h
    have hdrop : cols.drop src = cols[src] :: cols.drop (src + 1) :=
      List.drop_eq_getElem_cons h
    have h2 : List.drop src (List.map some cols)
        = some cols[src] :: List.map some (List.drop (src + 1) cols) := by
      rw [← List.map_drop, hdrop, List.map_cons]
    simp [onDragEnd, moveColumn, hget, hdrop, h2, List.map_take, List.map_drop,
      List.map_append]

/-- Witness for `reorder_gating_and_inbounds_move`: moving the first of
three columns to index 2. -/
theorem reorder_inbounds_move_witness :
    onDragEnd true (some 2) 0 reorderDemoCols3
      = (moveColumn reorderDemoCols3 0 2).map some :=
  (reorder_gating_and_inbounds_move reorderDemoCols3 true (some 2) 0).2.2 2
    (by decide)

/-- Claim C7, counterexample: a non-empty unparseable `x-total-count`
header (`"abc"`) is not treated as 0 — `parseInt` yields `NaN`, so
`totalPages` becomes `NaN` (`none`), not 0. -/
theorem totalPages_unparseable_header_not_zero :
    (fetchResultsComplete 10
        (FetchOutcome.success [[("id", Value.num 1)]] (some "abc"))
        initialState).totalPages = none
    ∧ (fetchResultsComplete 10
        (FetchOutcome.success [[("id", Value.num 1)]] (some "abc"))
        initialState).totalPages ≠ some 0 := by
  decide

/-- Claim C7, amended: after a successful fetch,
`totalPages = ceil(totalCount / pageSize)` where `totalCount` is
`parseInt` of the header with an absent or empty header treated as `"0"`;
a non-empty unparseable header gives `NaN` (not 0).  Concretely, with page
size 10, total counts 0, 1, 100, 101 give 0, 1, 10, 11 pages. -/
theorem totalPages_formula (pagePerRecord : Int) (s : State)
    (data : List Record) (header : Option String) :
    (fetchResultsComplete pagePerRecord
        (FetchOutcome.success data header) s).totalPages
      = (parseTotalCount header).map (fun n => ceilDivInt n pagePerRecord)
    ∧ parseTotalCount none = some 0
    ∧ parseTotalCount (some "") = some 0
    ∧ parseTotalCount (some "abc") = none
    ∧ parseTotalCount (some "101") = some 101
    ∧ ceilDivInt 0 10 = 0
    ∧ ceilDivInt 1 10 = 1
    ∧ ceilDivInt 100 10 = 10
    ∧ ceilDivInt 101 10 = 11 := by
  refine ⟨?_, by decide, by decide, by decide, by decide,
    by decide, by decide, by decide, by decide⟩
  cases data <;> rfl

/-- Claim C8: every mutating action no-ops (without error) when its
governing capability flag is false: `handleSort` under `isSort = false`,
`toggleColumnVisibility` and `onDragEnd` under `columnToogle = false`,
`applyFilter` under `isFilter = false` leave the whole state unchanged and
issue no fetch; the column sequence in particular is unchanged. -/
theorem disabled_actions_noop (s : State) (c k e : String) (pp : Int)
    (dest : Option Nat) (src : Nat) (cols : List Column) :
    handleSort false c s = (s, none)
    ∧ toggleColumnVisibility false k s = (s, none)
    ∧ applyFilter false e pp s = (s, none)
    ∧ onDragEnd false dest src cols = cols.map some := by
  refine ⟨rfl, rfl, rfl, ?_⟩
  cases dest <;> simp [onDragEnd]

/-- Claim C9: with filtering enabled, `applyFilter` resets `currentPage`
to 1 and issues a fetch of page 1 whose URL is built from the endpoint,
the page number and the page size only; the URL does not depend on the
title/body filter text. -/
theorem applyFilter_resets_page_and_url (e : String) (pp : Int) (s : State) :
    (applyFilter true e pp s).1.currentPage = 1
    ∧ (applyFilter true e pp s).1.isLoading = true
    ∧ (applyFilter true e pp s).2 = some ⟨requestUrl e 1 pp⟩
    ∧ (∀ t b : String,
        (applyFilter true e pp { s with titleFilter := t, bodyFilter := b }).2
          = (applyFilter true e pp s).2) :=
  ⟨rfl, rfl, rfl, fun _ _ => rfl⟩

/-- Claim C10: with sorting enabled, `handleSort` permutes the current
records (none added, removed or modified) and leaves the columns, the
pagination state and both filter texts unchanged; it issues no network
request. -/
theorem sort_permutes_and_preserves_frame (c : String) (s : State) :
    List.Perm (handleSort true c s).1.results s.results
    ∧ (handleSort true c s).1.columns = s.columns
    ∧ (handleSort true c s).1.currentPage = s.currentPage
    ∧ (handleSort true c s).1.totalPages = s.totalPages
    ∧ (handleSort true c s).1.titleFilter = s.titleFilter
    ∧ (handleSort true c s).1.bodyFilter = s.bodyFilter
    ∧ (handleSort true c s).2 = none := by
  by_cases h : s.sortColumn = some c <;>
    refine ⟨?_, ?_, ?_, ?_, ?_, ?_, ?_⟩ <;>
    simp [handleSort, h, sortCmp_perm]

end ReusableTable
